import Mathlib

/-!
# ResuMatch batch form

A model of `src/components/MultipleResumes.js`: the component state (seven `useState`
cells), the two event handlers `handleDirectorySelect` and `handleSubmit`, the rendered
page, and the presentational component `ResultsList`.

Asynchronous calls are modelled by their outcomes: the directory picker, `getFile`,
`fetch` and `response.json()` each either resolve with a value or reject with an error.
Every setter of the component stores an absolute value, so a handler is a function from
the state it runs on to the state it leaves.
-/

namespace ResuMatch

/-! ## JavaScript strings and numbers -/

/-- The code points `String.prototype.trim` and `parseInt` strip: ECMAScript `WhiteSpace`
and `LineTerminator`. -/
def isWhiteSpace (c : Char) : Bool :=
  c.toNat == 0x09 || c.toNat == 0x0A || c.toNat == 0x0B || c.toNat == 0x0C ||
  c.toNat == 0x0D || c.toNat == 0x20 || c.toNat == 0xA0 || c.toNat == 0x1680 ||
  (0x2000 ≤ c.toNat && c.toNat ≤ 0x200A) || c.toNat == 0x2028 || c.toNat == 0x2029 ||
  c.toNat == 0x202F || c.toNat == 0x205F || c.toNat == 0x3000 || c.toNat == 0xFEFF

/-- The method `String.prototype.trim`: white space removed from both ends. -/
def trim (s : String) : String :=
  ⟨((s.data.dropWhile isWhiteSpace).reverse.dropWhile isWhiteSpace).reverse⟩

/-- The method `String.prototype.toLowerCase`, on the ASCII range. The only code points outside it whose
lower-case form contains an ASCII character are U+212A (giving `k`) and U+0130 (giving `i`),
so a test for the suffix `.pdf` is not affected. -/
def toLowerCase (s : String) : String :=
  ⟨s.data.map Char.toLower⟩

/-- The method `String.prototype.endsWith`. -/
def endsWith (s suffix : String) : Bool :=
  suffix.data.isSuffixOf s.data

/-- Truthiness of a string: every string but the empty one. -/
def truthy (s : String) : Bool :=
  !s.data.isEmpty

/-- The constant `Number.MAX_SAFE_INTEGER`, 2^53 - 1: every integer up to it in magnitude is
a double, and `Number.prototype.toString` prints each of them digit by digit. -/
def maxSafeInteger : Nat := 9007199254740991

/-- The numbers of the model: `NaN` and the safe integers, which a double holds exactly.
A larger value is a rounded double (or `Infinity`), printed in part with an exponent; such
values are left outside the model instead of being approximated. -/
inductive JsNumber where
  | nan
  | int (z : Int) (safe : z.natAbs ≤ maxSafeInteger)
deriving DecidableEq, Repr

/-- The method `Number.prototype.toString` (and the rendering of a number in a template
literal or a JSX child): the decimal numeral of a safe integer, `NaN` otherwise. -/
def JsNumber.toString : JsNumber → String
  | .nan => "NaN"
  | .int z _ => ToString.toString z

/-- The number with a given sign and magnitude, when it is a safe integer. -/
def JsNumber.ofMagnitude (negative : Bool) (n : Nat) : Option JsNumber :=
  if h : n ≤ maxSafeInteger then
    some
      (if negative then .int (-(n : Int)) (by simpa using h)
       else .int (n : Int) (by simpa using h))
  else none

/-- The value of a character as a digit, letters counting from ten. -/
def digitValue (c : Char) : Option Nat :=
  if '0' ≤ c ∧ c ≤ '9' then some (c.toNat - '0'.toNat)
  else if 'a' ≤ c ∧ c ≤ 'z' then some (c.toNat - 'a'.toNat + 10)
  else if 'A' ≤ c ∧ c ≤ 'Z' then some (c.toNat - 'A'.toNat + 10)
  else none

/-- The longest run of leading characters that are digits of the radix, as digit values. -/
def radixDigits (radix : Nat) : List Char → List Nat
  | [] => []
  | c :: cs =>
    match digitValue c with
    | some d => if d < radix then d :: radixDigits radix cs else []
    | none => []

/-- The global `parseInt(string)` without a radix argument: leading white space is skipped,
a sign is read, `0x` or `0X` selects radix 16, and the leading digits are the value; no
digit gives `NaN`. The result is `none` when the value read is beyond the safe integers,
where `parseInt` returns a rounded double that the model does not hold. -/
def parseInt (text : String) : Option JsNumber :=
  let s := text.data.dropWhile isWhiteSpace
  let signed : Bool × List Char :=
    match s with
    | '-' :: r => (true, r)
    | '+' :: r => (false, r)
    | _ => (false, s)
  let based : Nat × List Char :=
    match signed.2 with
    | '0' :: 'x' :: r => (16, r)
    | '0' :: 'X' :: r => (16, r)
    | _ => (10, signed.2)
  let digits := radixDigits based.1 based.2
  if digits.isEmpty then some .nan
  else JsNumber.ofMagnitude signed.1 (digits.foldl (fun acc d => acc * based.1 + d) 0)

/-! ## Data -/

/-- A `File` blob as the directory hands it out. -/
structure File where
  name : String
  bytes : List Nat
deriving DecidableEq, Repr

/-- The settled promise of `entry.getFile()`. -/
inductive GetFileOutcome where
  | resolved (file : File)
  | rejected (message : String)
deriving DecidableEq, Repr

/-- A handle yielded by `directoryHandle.values()`. -/
structure Entry where
  kind : String
  name : String
  getFile : GetFileOutcome
deriving DecidableEq, Repr

/-- The handle `showDirectoryPicker` resolves with, and what its `values()` yields. -/
structure DirectoryHandle where
  name : String
  values : List Entry
deriving DecidableEq, Repr

/-- One element of `qualifying` in the backend reply. -/
structure Candidate where
  name : String
  email : String
  score : Int
deriving DecidableEq, Repr

/-- The backend reply `{ total, qualifying[] }`. -/
structure Results where
  total : Int
  qualifying : List Candidate
deriving DecidableEq, Repr

/-- The seven `useState` cells of `MultipleResumes` (lines 7-13). -/
structure State where
  jobDescription : String
  threshold : JsNumber
  isProcessing : Bool
  error : String
  results : Option Results
  directoryHandle : Option DirectoryHandle
  selectedDirName : String
deriving DecidableEq, Repr

/-- The initial values given to `useState`. -/
def State.initial : State :=
  { jobDescription := "", threshold := .int 70 (by decide), isProcessing := false,
    error := "", results := none, directoryHandle := none, selectedDirName := "" }

/-- A value appended to a `FormData`. -/
inductive FormValue where
  | file (f : File)
  | text (s : String)
deriving DecidableEq, Repr

/-- A `FormData`: its parts in the order they were appended. -/
abbrev FormData := List (String × FormValue)

/-- The arguments of a `fetch` call. -/
structure Request where
  url : String
  method : String
  body : FormData
deriving DecidableEq, Repr

/-- The settled promise of `response.json()`. -/
inductive JsonOutcome where
  | parsed (data : Results)
  | failed (message : String)
deriving DecidableEq, Repr

/-- A `Response`: the fields `handleSubmit` reads. -/
structure Response where
  ok : Bool
  status : Nat
  json : JsonOutcome
deriving DecidableEq, Repr

/-- The settled promise of `fetch`. -/
inductive FetchOutcome where
  | responded (r : Response)
  | rejected (message : String)
deriving DecidableEq, Repr

/-- An error as the `catch` of `handleDirectorySelect` sees it. -/
structure JsError where
  name : String
  message : String
deriving DecidableEq, Repr

/-- The settled promise of `window.showDirectoryPicker()`. -/
inductive PickerOutcome where
  | resolved (dirHandle : DirectoryHandle)
  | rejected (err : JsError)
deriving DecidableEq, Repr

/-- What a handler does to the outside world, in the order it does it. -/
inductive Effect where
  | preventDefault
  | enumerate (dirName : String)
  | fetch (request : Request)
  | parseJson
deriving DecidableEq, Repr

/-! ## handleDirectorySelect (lines 15-28) -/

/-- The state `handleDirectorySelect` leaves, for each outcome of the picker. -/
def handleDirectorySelect (s : State) (picked : PickerOutcome) : State :=
  match picked with
  | .resolved dirHandle =>
    { s with directoryHandle := some dirHandle, selectedDirName := dirHandle.name, error := "" }
  | .rejected err =>
    if err.name != "AbortError" then
      { s with error := "Failed to select directory. Make sure your browser supports this feature." }
    else s

/-! ## handleSubmit (lines 30-85) -/

/-- The test of line 50: a file whose lower-cased name ends with `.pdf`. -/
def isPdfEntry (entry : Entry) : Bool :=
  entry.kind == "file" && endsWith (toLowerCase entry.name) ".pdf"

/-- The loop of lines 48-54 from a given content of `pdfFiles`: each entry passing the test
has its file pushed; a rejected `getFile` leaves the loop with the error's message. -/
def gatherLoop : List Entry → List File → Except String (List File)
  | [], pdfFiles => .ok pdfFiles
  | entry :: rest, pdfFiles =>
    if isPdfEntry entry then
      match entry.getFile with
      | .resolved file => gatherLoop rest (pdfFiles ++ [file])
      | .rejected message => .error message
    else gatherLoop rest pdfFiles

/-- Lines 48-54: `pdfFiles` starts empty and the loop runs over the enumeration. -/
def gatherPdfFiles (entries : List Entry) : Except String (List File) :=
  gatherLoop entries []

/-- Lines 61-66: one `pdfFiles` part per file, then `jobDescription`, then `threshold`. -/
def buildFormData (pdfFiles : List File) (jobDescription : String) (threshold : JsNumber) :
    FormData :=
  let formData : FormData :=
    pdfFiles.foldl (fun formData file => formData ++ [("pdfFiles", FormValue.file file)]) []
  let formData := formData ++ [("jobDescription", FormValue.text jobDescription)]
  formData ++ [("threshold", FormValue.text threshold.toString)]

/-- The `catch` and `finally` of lines 80-84. -/
def failWith (s : State) (message : String) : State :=
  { s with error := "Processing failed: " ++ message, isProcessing := false }

/-- Where `handleSubmit` stands when it first yields for the network. -/
inductive Submission where
  | finished (s : State) (effects : List Effect)
  | awaiting (s : State) (effects : List Effect) (request : Request)
deriving DecidableEq, Repr

/-- Lines 30-72: `handleSubmit` up to the `await fetch`, on the state it was rendered with. -/
def submitStart (s : State) : Submission :=
  match s.directoryHandle with
  | none =>
    .finished { s with error := "Please select a directory containing resumes first" }
      [.preventDefault]
  | some directoryHandle =>
    if !truthy (trim s.jobDescription) then
      .finished { s with error := "Please enter a job description" } [.preventDefault]
    else
      let s1 := { s with isProcessing := true, error := "" }
      match gatherPdfFiles directoryHandle.values with
      | .error message =>
        .finished (failWith s1 message) [.preventDefault, .enumerate directoryHandle.name]
      | .ok pdfFiles =>
        if pdfFiles.length == 0 then
          .finished (failWith s1 "No PDF files found in the selected directory")
            [.preventDefault, .enumerate directoryHandle.name]
        else
          let request : Request :=
            { url := "/api/evaluate-multiple", method := "POST",
              body := buildFormData pdfFiles s.jobDescription s.threshold }
          .awaiting s1 [.preventDefault, .enumerate directoryHandle.name, .fetch request]
            request

/-- Lines 74-84: `handleSubmit` from the settled `fetch` on, applied to the state current
at that moment. -/
def submitSettle (s : State) (outcome : FetchOutcome) : State × List Effect :=
  match outcome with
  | .rejected message => (failWith s message, [])
  | .responded response =>
    if !response.ok then
      (failWith s ("Error: " ++ ToString.toString response.status), [])
    else
      match response.json with
      | .failed message => (failWith s message, [.parseJson])
      | .parsed data => ({ s with results := some data, isProcessing := false }, [.parseJson])

/-- The whole of `handleSubmit` when no other event comes in between: the state it leaves
and what it did, the network answering each request with an outcome. -/
def handleSubmit (s : State) (network : Request → FetchOutcome) : State × List Effect :=
  match submitStart s with
  | .finished s1 effects => (s1, effects)
  | .awaiting s1 effects request =>
    ((submitSettle s1 (network request)).1, effects ++ (submitSettle s1 (network request)).2)

/-! ## ResultsList (lines 180-240) -/

/-- A `tr` of the table body (lines 212-226): its key and class, the name and email cells,
the width of the score bar, and the number in the `span`, which the literal `%` follows. -/
structure Row where
  key : Nat
  className : String
  name : String
  email : String
  barWidth : String
  score : Int
deriving DecidableEq, Repr

/-- The callback of `results.qualifying.map` (lines 211-227), from a given index on. -/
def renderRows : Nat → List Candidate → List Row
  | _, [] => []
  | index, candidate :: rest =>
    { key := index
      className := if index % 2 == 0 then "bg-white" else "bg-slate-50"
      name := candidate.name
      email := candidate.email
      barWidth := ToString.toString candidate.score ++ "%"
      score := candidate.score } :: renderRows (index + 1) rest

/-- What `ResultsList` puts under the heading: the table or the empty state. -/
inductive ResultsBody where
  | table (summary : String) (rows : List Row)
  | emptyState (message : String) (totalLine : String)
deriving DecidableEq, Repr

/-- The rendering of `ResultsList`. -/
structure ResultsView where
  heading : String
  resetLabel : String
  body : ResultsBody
deriving DecidableEq, Repr

/-- The component `ResultsList` (lines 180-240), for the props `results` and `threshold`. -/
def ResultsList (results : Results) (threshold : JsNumber) : ResultsView :=
  { heading := "Candidates Above " ++ threshold.toString ++ "% Match Score"
    resetLabel := "Process New Batch"
    body :=
      if results.qualifying.length > 0 then
        .table
          ("Found " ++ ToString.toString results.qualifying.length ++ " candidate" ++
            (if results.qualifying.length != 1 then "s" else "") ++ " out of " ++
            ToString.toString results.total ++ " resumes that match" ++
            (if results.qualifying.length != 1 then "" else "es") ++ " your criteria.")
          (renderRows 0 results.qualifying)
      else
        .emptyState ("No candidates met the " ++ threshold.toString ++ "% threshold.")
          ("Total resumes processed: " ++ ToString.toString results.total) }

/-- The rows of the rendered table; the empty state has none. -/
def ResultsView.rows (view : ResultsView) : List Row :=
  match view.body with
  | .table _ rows => rows
  | .emptyState _ _ => []

/-- Whether the empty-state message is what was rendered. -/
def ResultsView.isEmptyState (view : ResultsView) : Bool :=
  match view.body with
  | .table _ _ => false
  | .emptyState _ _ => true

/-! ## The page (lines 87-177) -/

/-- The `disabled` attribute of the submit button (line 161). -/
def submitDisabled (s : State) : Bool :=
  s.directoryHandle.isNone || !truthy (trim s.jobDescription) || s.isProcessing

/-- The validity of the threshold field, `type="number" min="0" max="100"` (lines 131-139),
which shows the threshold cell: no number shown is valid, since the field is not `required`,
and a number is valid from 0 to 100. -/
def thresholdFieldValid : JsNumber → Bool
  | .nan => true
  | .int z _ => decide (0 ≤ z) && decide (z ≤ 100)

/-- The constraint validation the browser runs before it fires the submit event of the
form, which has no `noValidate`: the threshold field within `min` and `max`, and the
`required` job description (line 153) not empty. -/
def formValid (s : State) : Bool :=
  thresholdFieldValid s.threshold && truthy s.jobDescription

/-- The form of lines 109-167, as far as it depends on the state. -/
structure FormView where
  directoryLabel : String
  thresholdValue : JsNumber
  jobDescriptionValue : String
  errorLine : Option String
  buttonDisabled : Bool
  buttonLabel : String
deriving DecidableEq, Repr

/-- The two alternatives of line 108. -/
inductive PageView where
  | form (view : FormView)
  | results (view : ResultsView)
deriving DecidableEq, Repr

/-- The `main` element of `MultipleResumes`: the form while `results` is null, the results
list with the current `threshold` otherwise. -/
def render (s : State) : PageView :=
  match s.results with
  | none =>
    .form
      { directoryLabel :=
          if truthy s.selectedDirName then "Selected: " ++ s.selectedDirName
          else "Click to select a directory containing PDFs"
        thresholdValue := s.threshold
        jobDescriptionValue := s.jobDescription
        errorLine := if truthy s.error then some s.error else none
        buttonDisabled := submitDisabled s
        buttonLabel := if s.isProcessing then "Processing Resumes..." else "Process Resumes" }
  | some results => .results (ResultsList results s.threshold)

/-! ## The page as a transition system -/

/-- The component between two events: its state, the request whose answer `handleSubmit`
is waiting for, and the request whose answer is the `results` now held. -/
structure Page where
  state : State
  inFlight : Option Request
  answered : Option Request
deriving DecidableEq, Repr

/-- The page as first rendered. -/
def Page.initial : Page :=
  { state := State.initial, inFlight := none, answered := none }

/-- What can happen to the page. -/
inductive Event where
  | editThreshold (text : String)
  | editJobDescription (text : String)
  | selectDirectory (picked : PickerOutcome)
  | submit
  | response (outcome : FetchOutcome)
  | reset
deriving DecidableEq, Repr

/-- Whether the outcome of a `fetch` makes `handleSubmit` reach `setResults`. -/
def FetchOutcome.setsResults : FetchOutcome → Bool
  | .responded r =>
    r.ok && (match r.json with
      | .parsed _ => true
      | .failed _ => false)
  | .rejected _ => false

/-- One event. The controls of the form exist only while the form is rendered, the submit
event comes from the enabled button of a form that passes constraint validation, the reset
button exists only in the results list, and a response comes only to a request in flight; an
event that cannot happen gives `none`, and so does an edit of the threshold to a value beyond
the safe integers, which the model does not hold. -/
def step (p : Page) : Event → Option Page
  | .editThreshold text =>
    if p.state.results.isNone then
      match parseInt text with
      | some value => some { p with state := { p.state with threshold := value } }
      | none => none
    else none
  | .editJobDescription text =>
    if p.state.results.isNone then
      some { p with state := { p.state with jobDescription := text } }
    else none
  | .selectDirectory picked =>
    if p.state.results.isNone then
      some { p with state := handleDirectorySelect p.state picked }
    else none
  | .submit =>
    if p.state.results.isNone && !submitDisabled p.state && formValid p.state then
      match submitStart p.state with
      | .finished s _ => some { p with state := s }
      | .awaiting s _ request => some { p with state := s, inFlight := some request }
    else none
  | .response outcome =>
    match p.inFlight with
    | none => none
    | some request =>
      some { state := (submitSettle p.state outcome).1
             inFlight := none
             answered := if outcome.setsResults then some request else p.answered }
  | .reset =>
    if p.state.results.isSome then
      some { p with state := { p.state with results := none }, answered := none }
    else none

/-- A sequence of events from a page on. -/
def run : Page → List Event → Option Page
  | p, [] => some p
  | p, e :: es =>
    match step p e with
    | none => none
    | some q => run q es

/-- The requests among the effects of a handler, in the order they were sent. -/
def sentRequests : List Effect → List Request
  | [] => []
  | .fetch request :: rest => request :: sentRequests rest
  | _ :: rest => sentRequests rest

/-! ## Sample data -/

/-- A directory with two PDF files, a sub-directory whose name ends in `.pdf`, and a text
file. -/
def sampleDirectory : DirectoryHandle :=
  { name := "resumes"
    values :=
      [ { kind := "file", name := "Ada.PDF", getFile := .resolved ⟨"Ada.PDF", [37, 80, 68, 70]⟩ },
        { kind := "directory", name := "x.pdf", getFile := .rejected "not a file" },
        { kind := "file", name := "notes.txt", getFile := .resolved ⟨"notes.txt", [110]⟩ },
        { kind := "file", name := "bob.pdf", getFile := .resolved ⟨"bob.pdf", [37, 80]⟩ } ] }

/-- A directory without any PDF file. -/
def sampleEmptyDirectory : DirectoryHandle :=
  { name := "empty"
    values :=
      [ { kind := "directory", name := "x.pdf", getFile := .rejected "not a file" },
        { kind := "file", name := "notes.txt", getFile := .resolved ⟨"notes.txt", [110]⟩ } ] }

/-- A state with a directory selected and a job description typed. -/
def sampleState : State :=
  { State.initial with
    jobDescription := "Proof engineer"
    directoryHandle := some sampleDirectory
    selectedDirName := "resumes" }

/-- A backend reply with one candidate scoring 10. -/
def sampleResults : Results :=
  { total := 2, qualifying := [ { name := "Ada", email := "ada@example.com", score := 10 } ] }

/-- A network that answers every request with status 500. -/
def sampleFailingNetwork : Request → FetchOutcome :=
  fun _ => .responded { ok := false, status := 500, json := .failed "Unexpected token" }

/-! ## Lemmas on the string model -/

theorem dropWhile_eq_nil_of_all {p : Char → Bool} {cs : List Char}
    (h : ∀ c ∈ cs, p c = true) : cs.dropWhile p = [] := by
  induction cs with
  | nil => rfl
  | cons c cs ih =>
    have hc : p c = true := h c (List.mem_cons_self c cs)
    simp only [List.dropWhile_cons, hc, if_true]
    exact ih (fun d hd => h d (List.mem_cons_of_mem c hd))

theorem all_of_dropWhile_eq_nil {p : Char → Bool} {cs : List Char}
    (h : cs.dropWhile p = []) : ∀ c ∈ cs, p c = true := by
  induction cs with
  | nil => intro c hc; cases hc
  | cons d cs ih =>
    by_cases hd : p d = true
    · simp only [List.dropWhile_cons, hd, if_true] at h
      intro c hc
      rcases List.mem_cons.mp hc with rfl | hc
      · exact hd
      · exact ih h c hc
    · simp [List.dropWhile_cons, hd] at h

theorem all_of_all_dropWhile {p : Char → Bool} {cs : List Char}
    (h : ∀ c ∈ cs.dropWhile p, p c = true) : ∀ c ∈ cs, p c = true := by
  induction cs with
  | nil => intro c hc; cases hc
  | cons d cs ih =>
    by_cases hd : p d = true
    · simp only [List.dropWhile_cons, hd, if_true] at h
      intro c hc
      rcases List.mem_cons.mp hc with rfl | hc
      · exact hd
      · exact ih h c hc
    · have hdrop : (d :: cs).dropWhile p = d :: cs := by simp [List.dropWhile_cons, hd]
      rw [hdrop] at h
      exact h

/-- The trimmed string is empty exactly when every character is white space. -/
theorem truthy_trim_eq_false_iff (s : String) :
    truthy (trim s) = false ↔ ∀ c ∈ s.data, isWhiteSpace c = true := by
  simp only [truthy, trim, Bool.not_eq_false', List.isEmpty_iff, List.reverse_eq_nil_iff]
  constructor
  · intro h
    have h1 := all_of_dropWhile_eq_nil h
    exact all_of_all_dropWhile (fun c hc => h1 c (List.mem_reverse.mpr hc))
  · intro h
    rw [dropWhile_eq_nil_of_all h]
    rfl

/-- Every character `Nat.toDigitsCore` adds in base ten is a decimal digit. -/
theorem toDigitsCore_isDigit (fuel n : Nat) (acc : List Char)
    (hacc : ∀ c ∈ acc, c.isDigit = true) :
    ∀ c ∈ Nat.toDigitsCore 10 fuel n acc, c.isDigit = true := by
  induction fuel generalizing n acc with
  | zero => simpa [Nat.toDigitsCore] using hacc
  | succ fuel ih =>
    have hd : (Nat.digitChar (n % 10)).isDigit = true := by
      have : n % 10 < 10 := Nat.mod_lt _ (by decide)
      interval_cases (n % 10) <;> decide
    have hacc2 : ∀ c ∈ Nat.digitChar (n % 10) :: acc, c.isDigit = true := by
      intro c hc
      rcases List.mem_cons.mp hc with rfl | hc
      · exact hd
      · exact hacc c hc
    unfold Nat.toDigitsCore
    simp only
    split
    · exact hacc2
    · exact ih _ _ hacc2

/-- The text `NaN` is the decimal numeral of no natural number. -/
theorem nat_repr_ne_NaN (n : Nat) : Nat.repr n ≠ "NaN" := by
  intro h
  have hall := toDigitsCore_isDigit (n + 1) n [] (by intro c hc; cases hc)
  have hdata : Nat.toDigits 10 n = ['N', 'a', 'N'] := by
    have := congrArg String.data h
    simpa [Nat.repr, List.asString] using this
  have hN : 'N'.isDigit = true := hall 'N' (by
    show 'N' ∈ Nat.toDigits 10 n
    rw [hdata]
    simp)
  revert hN
  decide

/-- The text `NaN` is the decimal numeral of no integer. -/
theorem int_toString_ne_NaN (t : Int) : ToString.toString t ≠ "NaN" := by
  cases t with
  | ofNat n => exact nat_repr_ne_NaN n
  | negSucc n =>
    intro h
    have := congrArg String.data h
    revert this
    show ("-" ++ Nat.repr (n + 1)).data = ['N', 'a', 'N'] → False
    simp [String.data_append]

/-! ## Lemmas on handleSubmit -/

theorem gatherLoop_ok_iff (entries : List Entry) (acc files : List File) :
    gatherLoop entries acc = .ok files ↔
      ∃ more, files = acc ++ more ∧
        (entries.filter isPdfEntry).map Entry.getFile = more.map GetFileOutcome.resolved := by
  induction entries generalizing acc with
  | nil =>
    simp only [gatherLoop, List.filter_nil, List.map_nil]
    constructor
    · intro h
      refine ⟨[], ?_, rfl⟩
      simpa using (Except.ok.inj h).symm
    · rintro ⟨more, hfiles, hmore⟩
      have : more = [] := by simpa using hmore.symm
      subst this
      simp [hfiles]
  | cons entry rest ih =>
    unfold gatherLoop
    by_cases hp : isPdfEntry entry = true
    · simp only [hp, if_true, List.filter_cons_of_pos, List.map_cons]
      cases hg : entry.getFile with
      | resolved file =>
        simp only [ih]
        constructor
        · rintro ⟨more, hfiles, hmore⟩
          exact ⟨file :: more, by simp [hfiles], by simp [hmore]⟩
        · rintro ⟨more, hfiles, hmore⟩
          cases more with
          | nil => simp at hmore
          | cons f more =>
            simp only [List.map_cons, List.cons.injEq, GetFileOutcome.resolved.injEq] at hmore
            obtain ⟨hf, hrest⟩ := hmore
            subst hf
            exact ⟨more, by simp [hfiles], hrest⟩
      | rejected message =>
        constructor
        · intro h; cases h
        · rintro ⟨more, _, hmore⟩
          cases more with
          | nil => simp at hmore
          | cons f more => simp at hmore
    · simp only [hp, Bool.false_eq_true, if_false]
      rw [List.filter_cons_of_neg hp]
      exact ih acc

theorem gatherPdfFiles_of_no_pdf (entries : List Entry)
    (h : ∀ entry ∈ entries, isPdfEntry entry = false) : gatherPdfFiles entries = .ok [] := by
  refine (gatherLoop_ok_iff entries [] []).mpr ⟨[], rfl, ?_⟩
  have hnil : entries.filter isPdfEntry = [] := by
    rw [List.filter_eq_nil_iff]
    intro entry hmem
    simp [h entry hmem]
  rw [hnil]
  rfl

theorem foldl_append_part (pdfFiles : List File) (acc : FormData) :
    pdfFiles.foldl (fun formData file => formData ++ [("pdfFiles", FormValue.file file)]) acc =
      acc ++ pdfFiles.map (fun file => ("pdfFiles", FormValue.file file)) := by
  induction pdfFiles generalizing acc with
  | nil => simp
  | cons file rest ih => simp [List.foldl_cons, ih]

theorem buildFormData_eq (pdfFiles : List File) (jobDescription : String)
    (threshold : JsNumber) :
    buildFormData pdfFiles jobDescription threshold =
      pdfFiles.map (fun file => ("pdfFiles", FormValue.file file)) ++
        [("jobDescription", FormValue.text jobDescription),
         ("threshold", FormValue.text threshold.toString)] := by
  simp [buildFormData, foldl_append_part]

/-- The run of `handleSubmit` that reaches the `fetch`: validation passed and the directory
gave at least one PDF. -/
theorem submitStart_awaiting (s : State) (directoryHandle : DirectoryHandle)
    (pdfFiles : List File) (hdir : s.directoryHandle = some directoryHandle)
    (hjob : truthy (trim s.jobDescription) = true)
    (hfiles : gatherPdfFiles directoryHandle.values = .ok pdfFiles) (hne : pdfFiles ≠ []) :
    submitStart s =
      .awaiting { s with isProcessing := true, error := "" }
        [.preventDefault, .enumerate directoryHandle.name,
          .fetch { url := "/api/evaluate-multiple", method := "POST",
                   body := buildFormData pdfFiles s.jobDescription s.threshold }]
        { url := "/api/evaluate-multiple", method := "POST",
          body := buildFormData pdfFiles s.jobDescription s.threshold } := by
  have hlen : (pdfFiles.length == 0) = false := by
    cases pdfFiles with
    | nil => exact absurd rfl hne
    | cons f fs => rfl
  simp [submitStart, hdir, hjob, hfiles, hlen]

theorem sentRequests_settle (s : State) (outcome : FetchOutcome) :
    sentRequests (submitSettle s outcome).2 = [] := by
  unfold submitSettle
  cases outcome with
  | rejected message => rfl
  | responded response =>
    cases hok : response.ok with
    | false => simp [hok, sentRequests]
    | true =>
      cases hj : response.json with
      | failed message => simp [hok, hj, sentRequests]
      | parsed data => simp [hok, hj, sentRequests]

/-- What `submitStart` has done whenever it is waiting for the network. -/
theorem submitStart_awaiting_inv (s s1 : State) (effects : List Effect) (request : Request)
    (h : submitStart s = .awaiting s1 effects request) :
    s1 = { s with isProcessing := true, error := "" } ∧
    ∃ directoryHandle pdfFiles,
      s.directoryHandle = some directoryHandle ∧
      truthy (trim s.jobDescription) = true ∧
      gatherPdfFiles directoryHandle.values = .ok pdfFiles ∧ pdfFiles ≠ [] ∧
      request =
        { url := "/api/evaluate-multiple", method := "POST",
          body := buildFormData pdfFiles s.jobDescription s.threshold } ∧
      effects = [.preventDefault, .enumerate directoryHandle.name, .fetch request] := by
  unfold submitStart at h
  rcases Option.eq_none_or_eq_some s.directoryHandle with hdir | ⟨directoryHandle, hdir⟩
  · simp [hdir] at h
  · rcases Bool.eq_false_or_eq_true (truthy (trim s.jobDescription)) with hjob | hjob
    · cases hg : gatherPdfFiles directoryHandle.values with
      | error message => simp [hdir, hjob, hg] at h
      | ok pdfFiles =>
        cases pdfFiles with
        | nil => simp [hdir, hjob, hg] at h
        | cons f fs =>
          simp only [hdir, hjob, hg, Bool.not_true, Bool.false_eq_true, if_false,
            List.length_cons, Nat.add_one_ne_zero, beq_iff_eq,
            Submission.awaiting.injEq] at h
          obtain ⟨h1, h2, h3⟩ := h
          refine ⟨by rw [hdir]; exact h1.symm, directoryHandle, f :: fs, hdir, hjob, hg, List.cons_ne_nil f fs,
            h3.symm, ?_⟩
          rw [← h2, ← h3]
    · simp [hdir, hjob] at h

theorem sentRequests_append (xs ys : List Effect) :
    sentRequests (xs ++ ys) = sentRequests xs ++ sentRequests ys := by
  induction xs with
  | nil => rfl
  | cons x xs ih => cases x <;> simp [sentRequests, ih]

/-! ## Lemmas on ResultsList -/

theorem renderRows_length (index : Nat) (candidates : List Candidate) :
    (renderRows index candidates).length = candidates.length := by
  induction candidates generalizing index with
  | nil => rfl
  | cons candidate rest ih => simp [renderRows, ih]

theorem renderRows_getElem? (index i : Nat) (candidates : List Candidate) :
    (renderRows index candidates)[i]? =
      candidates[i]?.map (fun candidate =>
        { key := index + i
          className := if (index + i) % 2 == 0 then "bg-white" else "bg-slate-50"
          name := candidate.name
          email := candidate.email
          barWidth := ToString.toString candidate.score ++ "%"
          score := candidate.score }) := by
  induction candidates generalizing index i with
  | nil => simp [renderRows]
  | cons candidate rest ih =>
    cases i with
    | zero => simp [renderRows]
    | succ i =>
      simp only [renderRows, List.getElem?_cons_succ, ih]
      have h : index + 1 + i = index + (i + 1) := by omega
      rw [h]

theorem renderRows_score (index : Nat) (candidates : List Candidate) :
    (renderRows index candidates).map Row.score = candidates.map Candidate.score := by
  induction candidates generalizing index with
  | nil => rfl
  | cons candidate rest ih => simp [renderRows, ih]

theorem resultsList_rows_eq (results : Results) (threshold : JsNumber) :
    (ResultsList results threshold).rows = renderRows 0 results.qualifying := by
  cases hq : results.qualifying with
  | nil => simp [ResultsList, ResultsView.rows, hq, renderRows]
  | cons candidate rest => simp [ResultsList, ResultsView.rows, hq]

/-! ## The validation of the form -/

/-- With 150 typed in the threshold field the form fails its validation (`max="100"`), and no
submit event reaches `handleSubmit`. -/
theorem validation_blocks_above_max :
    run Page.initial
        [.selectDirectory (.resolved sampleDirectory), .editJobDescription "Proof engineer",
          .editThreshold "150", .submit] = none := by
  decide

/-! ## The claims -/

/-- C1: the loop of `handleSubmit` ends with a batch `files` exactly when the entries of kind
`file` whose lower-cased name ends with `.pdf`, taken in enumeration order, are the entries
whose `getFile` resolved with `files`, one file per entry in the same order; no other entry
contributes, and no matching file is dropped or duplicated. -/
theorem gatherPdfFiles_exact (entries : List Entry) (files : List File) :
    gatherPdfFiles entries = .ok files ↔
      (entries.filter
          (fun entry => entry.kind == "file" && endsWith (toLowerCase entry.name) ".pdf")).map
        Entry.getFile = files.map GetFileOutcome.resolved := by
  show gatherLoop entries [] = .ok files ↔
    (entries.filter isPdfEntry).map Entry.getFile = files.map GetFileOutcome.resolved
  rw [gatherLoop_ok_iff]
  constructor
  · rintro ⟨more, hfiles, hmore⟩
    rw [hfiles, List.nil_append]
    exact hmore
  · intro h
    exact ⟨files, (List.nil_append files).symm, h⟩

/-- C1 on the sample directory: the two PDF files are collected in order, the sub-directory
`x.pdf` and the text file are not. -/
theorem gatherPdfFiles_exact_witness :
    gatherPdfFiles sampleDirectory.values =
      .ok [⟨"Ada.PDF", [37, 80, 68, 70]⟩, ⟨"bob.pdf", [37, 80]⟩] :=
  (gatherPdfFiles_exact sampleDirectory.values
    [⟨"Ada.PDF", [37, 80, 68, 70]⟩, ⟨"bob.pdf", [37, 80]⟩]).mpr (by decide)

/-- C2: in a state whose `directoryHandle` is null or whose `jobDescription` has only white
space (or nothing), the submit button is disabled and `handleSubmit` sends no request, does
not enumerate the directory, leaves `results` and `isProcessing` (and every cell but `error`)
as they were, and sets `error` to the validation message, the directory message when the
directory is missing. -/
theorem submit_blocked (s : State) (network : Request → FetchOutcome)
    (h : s.directoryHandle = none ∨ ∀ c ∈ s.jobDescription.data, isWhiteSpace c = true) :
    submitDisabled s = true ∧
    sentRequests (handleSubmit s network).2 = [] ∧
    (∀ dirName, Effect.enumerate dirName ∉ (handleSubmit s network).2) ∧
    (handleSubmit s network).1.results = s.results ∧
    (handleSubmit s network).1.isProcessing = s.isProcessing ∧
    (handleSubmit s network).1 =
      { s with
        error :=
          if s.directoryHandle.isNone then "Please select a directory containing resumes first"
          else "Please enter a job description" } := by
  cases hdir : s.directoryHandle with
  | none =>
    simp [submitDisabled, handleSubmit, submitStart, hdir, sentRequests]
  | some directoryHandle =>
    have hws : ∀ c ∈ s.jobDescription.data, isWhiteSpace c = true := by
      rcases h with h | h
      · rw [hdir] at h; cases h
      · exact h
    have hjob : truthy (trim s.jobDescription) = false :=
      (truthy_trim_eq_false_iff s.jobDescription).mpr hws
    simp [submitDisabled, handleSubmit, submitStart, hdir, hjob, sentRequests]

/-- C2 on a state with a directory and a job description of blanks only. -/
theorem submit_blocked_witness :
    submitDisabled { sampleState with jobDescription := " \n\t" } = true ∧
    (handleSubmit { sampleState with jobDescription := " \n\t" } sampleFailingNetwork).1.error =
      "Please enter a job description" :=
  have h := submit_blocked { sampleState with jobDescription := " \n\t" } sampleFailingNetwork
    (Or.inr (by decide))
  ⟨h.1, by rw [h.2.2.2.2.2]; rfl⟩

/-- C3, as stated, fails: with the threshold cell holding `NaN`, as it does once the field
was cleared, `handleSubmit` on the sample directory sends a `threshold` part that is the
decimal string of no integer. -/
theorem threshold_part_not_decimal :
    ¬ ∃ t : Int,
      sentRequests
          (handleSubmit { sampleState with threshold := .nan } sampleFailingNetwork).2 =
        [ { url := "/api/evaluate-multiple"
            method := "POST"
            body :=
              [("pdfFiles", FormValue.file ⟨"Ada.PDF", [37, 80, 68, 70]⟩),
               ("pdfFiles", FormValue.file ⟨"bob.pdf", [37, 80]⟩),
               ("jobDescription", FormValue.text "Proof engineer"),
               ("threshold", FormValue.text (ToString.toString t))] } ] := by
  rintro ⟨t, h⟩
  have hsent :
      sentRequests
          (handleSubmit { sampleState with threshold := .nan } sampleFailingNetwork).2 =
        [ { url := "/api/evaluate-multiple"
            method := "POST"
            body :=
              [("pdfFiles", FormValue.file ⟨"Ada.PDF", [37, 80, 68, 70]⟩),
               ("pdfFiles", FormValue.file ⟨"bob.pdf", [37, 80]⟩),
               ("jobDescription", FormValue.text "Proof engineer"),
               ("threshold", FormValue.text "NaN")] } ] := by
    decide
  rw [hsent] at h
  simp only [List.cons.injEq, Request.mk.injEq, Prod.mk.injEq, FormValue.text.injEq,
    and_true, true_and] at h
  exact int_toString_ne_NaN t h.symm

/-- C3, amended: when validation passed, the directory gave the non-empty list `pdfFiles`
and the threshold cell holds the integer `t`, `handleSubmit` sends exactly one request, a
POST to `/api/evaluate-multiple`, whose body is one file part per collected PDF in the order
of collection, then one `jobDescription` part holding the job description as it is in the
state, then one `threshold` part holding the decimal string of `t`; nothing else. -/
theorem request_body_exact (s : State) (network : Request → FetchOutcome)
    (directoryHandle : DirectoryHandle) (pdfFiles : List File) (t : Int)
    (safe : t.natAbs ≤ maxSafeInteger)
    (hdir : s.directoryHandle = some directoryHandle)
    (hjob : truthy (trim s.jobDescription) = true)
    (hfiles : gatherPdfFiles directoryHandle.values = .ok pdfFiles) (hne : pdfFiles ≠ [])
    (hthreshold : s.threshold = .int t safe) :
    sentRequests (handleSubmit s network).2 =
      [ { url := "/api/evaluate-multiple"
          method := "POST"
          body :=
            pdfFiles.map (fun file => ("pdfFiles", FormValue.file file)) ++
              [("jobDescription", FormValue.text s.jobDescription),
               ("threshold", FormValue.text (ToString.toString t))] } ] := by
  have hstart := submitStart_awaiting s directoryHandle pdfFiles hdir hjob hfiles hne
  simp only [handleSubmit, hstart, sentRequests_append, sentRequests_settle,
    List.append_nil, sentRequests, buildFormData_eq, hthreshold, JsNumber.toString]

/-- C3 on the sample state: two file parts, the job description and the threshold `70`. -/
theorem request_body_exact_witness :
    sentRequests (handleSubmit sampleState sampleFailingNetwork).2 =
      [ { url := "/api/evaluate-multiple"
          method := "POST"
          body :=
            [("pdfFiles", FormValue.file ⟨"Ada.PDF", [37, 80, 68, 70]⟩),
             ("pdfFiles", FormValue.file ⟨"bob.pdf", [37, 80]⟩),
             ("jobDescription", FormValue.text "Proof engineer"),
             ("threshold", FormValue.text "70")] } ] :=
  request_body_exact sampleState sampleFailingNetwork sampleDirectory
    [⟨"Ada.PDF", [37, 80, 68, 70]⟩, ⟨"bob.pdf", [37, 80]⟩] 70 (by decide) rfl (by decide) rfl
    (by decide) rfl

/-- C4: when validation passed and no entry of the enumeration is a file whose lower-cased
name ends with `.pdf` (an empty enumeration included), `handleSubmit` sends no request,
leaves `results` as it was, and ends with `error` equal to
`Processing failed: No PDF files found in the selected directory`. -/
theorem no_pdf_error (s : State) (network : Request → FetchOutcome)
    (directoryHandle : DirectoryHandle) (hdir : s.directoryHandle = some directoryHandle)
    (hjob : truthy (trim s.jobDescription) = true)
    (hnone : ∀ entry ∈ directoryHandle.values,
      ¬ (entry.kind = "file" ∧ endsWith (toLowerCase entry.name) ".pdf" = true)) :
    sentRequests (handleSubmit s network).2 = [] ∧
    (handleSubmit s network).1.results = s.results ∧
    (handleSubmit s network).1.error =
      "Processing failed: No PDF files found in the selected directory" := by
  have hgather : gatherPdfFiles directoryHandle.values = .ok [] := by
    apply gatherPdfFiles_of_no_pdf
    intro entry hmem
    have := hnone entry hmem
    simpa [isPdfEntry] using this
  have hstart : submitStart s =
      .finished
        (failWith { s with isProcessing := true, error := "" }
          "No PDF files found in the selected directory")
        [.preventDefault, .enumerate directoryHandle.name] := by
    simp [submitStart, hdir, hjob, hgather]
  simp only [handleSubmit, hstart]
  refine ⟨rfl, rfl, ?_⟩
  simp only [failWith]
  decide

/-- C4 on the sample directory without PDF files. -/
theorem no_pdf_error_witness :
    sentRequests
      (handleSubmit { sampleState with directoryHandle := some sampleEmptyDirectory }
        sampleFailingNetwork).2 = [] ∧
    (handleSubmit { sampleState with directoryHandle := some sampleEmptyDirectory }
        sampleFailingNetwork).1.results = none ∧
    (handleSubmit { sampleState with directoryHandle := some sampleEmptyDirectory }
        sampleFailingNetwork).1.error =
      "Processing failed: No PDF files found in the selected directory" :=
  no_pdf_error { sampleState with directoryHandle := some sampleEmptyDirectory }
    sampleFailingNetwork sampleEmptyDirectory rfl (by decide) (by decide)

/-- C5: when `handleSubmit` reached the `fetch` and the response has `ok` false and status
`response.status`, the body is never parsed, `results` stays as it was, and `error` ends
equal to `Processing failed: Error: ` followed by the decimal numeral of the status. -/
theorem non_ok_error (s s1 : State) (network : Request → FetchOutcome)
    (effects : List Effect) (request : Request) (response : Response)
    (hstart : submitStart s = .awaiting s1 effects request)
    (hresponse : network request = .responded response) (hok : response.ok = false) :
    Effect.parseJson ∉ (handleSubmit s network).2 ∧
    (handleSubmit s network).1.results = s.results ∧
    (handleSubmit s network).1.error =
      "Processing failed: Error: " ++ ToString.toString response.status := by
  obtain ⟨hs1, directoryHandle, pdfFiles, _, _, _, _, _, heff⟩ :=
    submitStart_awaiting_inv s s1 effects request hstart
  have hsettle : submitSettle s1 (.responded response) =
      (failWith s1 ("Error: " ++ ToString.toString response.status), []) := by
    simp [submitSettle, hok]
  simp only [handleSubmit, hstart, hresponse, hsettle, List.append_nil]
  refine ⟨?_, ?_, ?_⟩
  · rw [heff]
    simp
  · rw [hs1]
    rfl
  · simp only [failWith]
    rw [← String.append_assoc]
    rfl

/-- C5 on the sample state with a network answering 500. -/
theorem non_ok_error_witness :
    Effect.parseJson ∉ (handleSubmit sampleState sampleFailingNetwork).2 ∧
    (handleSubmit sampleState sampleFailingNetwork).1.results = none ∧
    (handleSubmit sampleState sampleFailingNetwork).1.error =
      "Processing failed: Error: 500" :=
  non_ok_error sampleState { sampleState with isProcessing := true, error := "" }
    sampleFailingNetwork
    [.preventDefault, .enumerate "resumes",
      .fetch { url := "/api/evaluate-multiple", method := "POST",
               body := buildFormData [⟨"Ada.PDF", [37, 80, 68, 70]⟩, ⟨"bob.pdf", [37, 80]⟩]
                 "Proof engineer" (.int 70 (by decide)) }]
    { url := "/api/evaluate-multiple", method := "POST",
      body := buildFormData [⟨"Ada.PDF", [37, 80, 68, 70]⟩, ⟨"bob.pdf", [37, 80]⟩]
        "Proof engineer" (.int 70 (by decide)) }
    { ok := false, status := 500, json := .failed "Unexpected token" }
    (by decide) rfl rfl

/-- C6: `ResultsList` renders the empty-state message exactly when `qualifying` has length 0
and a table otherwise; the rows are as many as `qualifying` has elements, and the row at index
`i` shows the name, email and score of the element of `qualifying` at index `i` (with key `i`),
so no candidate is omitted, repeated or moved. -/
theorem resultsList_rows (results : Results) (threshold : JsNumber) :
    ((ResultsList results threshold).isEmptyState = true ↔ results.qualifying.length = 0) ∧
    ((ResultsList results threshold).isEmptyState = false ↔
      ∃ summary,
        (ResultsList results threshold).body =
          .table summary (ResultsList results threshold).rows) ∧
    (ResultsList results threshold).rows.length = results.qualifying.length ∧
    ∀ i : Nat,
      (ResultsList results threshold).rows[i]? =
        results.qualifying[i]?.map (fun candidate =>
          { key := i
            className := if i % 2 == 0 then "bg-white" else "bg-slate-50"
            name := candidate.name
            email := candidate.email
            barWidth := ToString.toString candidate.score ++ "%"
            score := candidate.score }) := by
  refine ⟨?_, ?_, ?_, ?_⟩
  · cases hq : results.qualifying with
    | nil => simp [ResultsList, ResultsView.isEmptyState, hq]
    | cons candidate rest => simp [ResultsList, ResultsView.isEmptyState, hq]
  · cases hq : results.qualifying with
    | nil => simp [ResultsList, ResultsView.isEmptyState, hq]
    | cons candidate rest =>
      simp [ResultsList, ResultsView.isEmptyState, ResultsView.rows, hq]
  · rw [resultsList_rows_eq, renderRows_length]
  · intro i
    rw [resultsList_rows_eq, renderRows_getElem?]
    simp

/-- C7: when the picker rejects with an error named `AbortError`, `handleDirectorySelect`
leaves the whole state as it was; when it rejects with any other name, `error` becomes the
picker-failure message and every other cell, `directoryHandle` and `selectedDirName` among
them, stays as it was. -/
theorem picker_rejection (s : State) (err : JsError) :
    (err.name = "AbortError" → handleDirectorySelect s (.rejected err) = s) ∧
    (err.name ≠ "AbortError" →
      handleDirectorySelect s (.rejected err) =
        { s with
          error :=
            "Failed to select directory. Make sure your browser supports this feature." } ∧
      (handleDirectorySelect s (.rejected err)).directoryHandle = s.directoryHandle ∧
      (handleDirectorySelect s (.rejected err)).selectedDirName = s.selectedDirName) := by
  constructor
  · intro h
    simp [handleDirectorySelect, h]
  · intro h
    simp [handleDirectorySelect, h]

/-- C7 on a state with a directory selected and an error shown: a cancelled picker changes
nothing, a picker failing otherwise replaces the error and keeps the directory. -/
theorem picker_rejection_witness :
    handleDirectorySelect { sampleState with error := "Please enter a job description" }
        (.rejected { name := "AbortError", message := "The user aborted a request." }) =
      { sampleState with error := "Please enter a job description" } ∧
    (handleDirectorySelect { sampleState with error := "Please enter a job description" }
        (.rejected { name := "SecurityError", message := "denied" })).directoryHandle =
      some sampleDirectory :=
  ⟨(picker_rejection { sampleState with error := "Please enter a job description" }
      { name := "AbortError", message := "The user aborted a request." }).1 rfl,
   ((picker_rejection { sampleState with error := "Please enter a job description" }
      { name := "SecurityError", message := "denied" }).2 (by decide)).2.1⟩

/-- C8, as stated, fails: given a reply whose `qualifying` holds a candidate scoring 10 and
the threshold 70, `ResultsList` renders a row with the score 10. -/
theorem resultsList_below_threshold :
    ¬ ∀ row ∈ (ResultsList sampleResults (.int 70 (by decide))).rows,
        (70 : Int) ≤ row.score := by
  decide

/-- C8, amended: `ResultsList` applies no filter of its own. The scores of its rows are the
scores of `results.qualifying`, one row per element in order, whatever the threshold; so for
every integer, the threshold of the heading among them, every rendered row has a score at or
above it exactly when every element of `results.qualifying` has. -/
theorem resultsList_no_filter (results : Results) (threshold : JsNumber) :
    (ResultsList results threshold).rows.map Row.score =
      results.qualifying.map Candidate.score ∧
    ∀ t : Int,
      (∀ row ∈ (ResultsList results threshold).rows, t ≤ row.score) ↔
        ∀ candidate ∈ results.qualifying, t ≤ candidate.score := by
  have hmap : (ResultsList results threshold).rows.map Row.score =
      results.qualifying.map Candidate.score := by
    rw [resultsList_rows_eq, renderRows_score]
  refine ⟨hmap, ?_⟩
  intro t
  constructor
  · intro h candidate hmem
    have hin : candidate.score ∈ (ResultsList results threshold).rows.map Row.score := by
      rw [hmap]
      exact List.mem_map_of_mem Candidate.score hmem
    obtain ⟨row, hrow, hscore⟩ := List.mem_map.mp hin
    rw [← hscore]
    exact h row hrow
  · intro h row hmem
    have hin : row.score ∈ results.qualifying.map Candidate.score := by
      rw [← hmap]
      exact List.mem_map_of_mem Row.score hmem
    obtain ⟨candidate, hcand, hscore⟩ := List.mem_map.mp hin
    rw [← hscore]
    exact h candidate hcand

/-- C9, the code at a failing input: the directory is selected, a job description typed, the
threshold field cleared (the edit stores `parseInt` of the empty text, `NaN`) and the form
submitted, which the validation of the form lets through since the field is not `required`;
the request in flight then carries the threshold part `NaN`, which is no numeral of an
integer between 0 and 100. -/
theorem threshold_outside_range_sent :
    parseInt "" = some .nan ∧
    (run Page.initial
        [.selectDirectory (.resolved sampleDirectory), .editJobDescription "Proof engineer",
          .editThreshold "", .submit]).map Page.inFlight =
      some (some
        { url := "/api/evaluate-multiple"
          method := "POST"
          body :=
            [("pdfFiles", FormValue.file ⟨"Ada.PDF", [37, 80, 68, 70]⟩),
             ("pdfFiles", FormValue.file ⟨"bob.pdf", [37, 80]⟩),
             ("jobDescription", FormValue.text "Proof engineer"),
             ("threshold", FormValue.text "NaN")] }) := by
  refine ⟨?_, ?_⟩ <;> decide

/-- C10, the code at a failing input: the form is submitted with the threshold 70, the
threshold field is changed to 50 while the request is in flight, and the reply arrives. The
results view is then displayed with the heading `Candidates Above 50% Match Score`, although
the request that produced the results carried the threshold part `70`. -/
theorem shown_threshold_differs_from_sent :
    (run Page.initial
        [.selectDirectory (.resolved sampleDirectory), .editJobDescription "Proof engineer",
          .submit, .editThreshold "50",
          .response (.responded { ok := true, status := 200, json := .parsed sampleResults })]).map
      (fun p => (render p.state, p.answered.map Request.body)) =
    some
      (.results
        { heading := "Candidates Above 50% Match Score"
          resetLabel := "Process New Batch"
          body :=
            .table "Found 1 candidate out of 2 resumes that matches your criteria."
              [ { key := 0, className := "bg-white", name := "Ada", email := "ada@example.com",
                  barWidth := "10%", score := 10 } ] },
       some
        [("pdfFiles", FormValue.file ⟨"Ada.PDF", [37, 80, 68, 70]⟩),
         ("pdfFiles", FormValue.file ⟨"bob.pdf", [37, 80]⟩),
         ("jobDescription", FormValue.text "Proof engineer"),
         ("threshold", FormValue.text "70")]) := by
  decide

end ResuMatch
